import Mathlib

/-!
# Verification of the Blink Monitor client (blink-monitor)

Shallow embedding of the parts of the repository that the specification's
claims are about:

* the `MpegtsPlayer` live-stream component (`src/unnamed/part_001`, second
  revision of the file): its mpegts error handler with the 5xx retry logic,
  the 45-second readiness timeout, and the retry-counter reset performed by
  the effect keyed on `effectiveUrl`;
* the destination allowlist guard of the desktop backend (modelled from the
  spec, since the backend is not part of this snapshot);
* the application state transitions in `src/src/App.tsx`: `handleLogout`,
  `fetchData`'s error classification, `handleLogin`/`handleVerifyPin`,
  `deleteSelectedMedia`, `handleLiveView` and `handleStop`;
* the `CameraSettings` save-payload selection (`src/unnamed/part_003`, with
  the earlier revision in `src/unnamed/part_002` embedded alongside).

JavaScript `Map`s are embedded as association lists in insertion order, which
is the iteration order a JS `Map` guarantees.  JS strings are Lean `String`s;
`String.prototype.includes` is embedded as substring containment on the
underlying character lists, and `String.prototype.toLowerCase` as a
character-wise lowercase map (the strings compared in the code are ASCII).
-/

/-- `listPrefixOf pat s` holds when `pat` is a prefix of `s` (boolean form,
structural recursion so that the kernel can evaluate it). -/
def listPrefixOf : List Char → List Char → Bool
  | [], _ => true
  | _ :: _, [] => false
  | a :: as, b :: bs => a == b && listPrefixOf as bs

/-- `listInfixOf pat s` holds when `pat` occurs contiguously inside `s`. -/
def listInfixOf (pat : List Char) : List Char → Bool
  | [] => listPrefixOf pat []
  | b :: bs => listPrefixOf pat (b :: bs) || listInfixOf pat bs

/-- JS `s.includes(pat)`: `pat` occurs as a contiguous substring of `s`. -/
def strIncludes (s pat : String) : Bool :=
  listInfixOf pat.toList s.toList

/-- JS `s.toLowerCase()` restricted to ASCII (character-wise lowercase). -/
def strToLower (s : String) : String :=
  ⟨s.toList.map Char.toLower⟩

example : strIncludes "Error: AUTH_EXPIRED" "AUTH_EXPIRED" = true := by decide

example : strIncludes "HTTP 404" "401" = false := by decide

example : strToLower "Refresh Token missing" = "refresh token missing" := by decide

/-! ## The `MpegtsPlayer` component (`src/unnamed/part_001`, second revision)

The component keeps, per player instance: `retryRef.current` (a retry
counter), `startedRef.current` (whether a readiness signal arrived),
`loading`, `error`, `status`, and `retryTimerRef` (a pending retry timer).
We record the pending timer as the delay it was armed with.

The effect at lines 645–655 runs whenever `effectiveUrl` changes;
`effectiveUrl` changes exactly when the `retryToken` counter is bumped
(either by the scheduled retry timer at lines 716–718 or by the manual
`handleRetry` button) or when the `url` prop changes.  That effect resets
`startedRef.current = false` and `retryRef.current = 0` and clears the
pending timer; the main effect (lines 669–771) then recreates the player
with `loading = true`, `error = null` and status
`"Establishing IMMI handshake..."`. -/

/-- The `info` argument of the mpegts `ERROR` event: `info?.code` and
`info?.msg` as the code reads them. -/
structure MpegtsErrorInfo where
  code : Option Int
  msg : Option String
deriving Repr, DecidableEq

/-- Per-instance state of `MpegtsPlayer`. -/
structure PlayerState where
  retryCount : Nat
  started : Bool
  loading : Bool
  error : Option String
  status : String
  retryScheduledMs : Option Nat
deriving Repr, DecidableEq

/-- State after the reset effect (lines 645–655) followed by the main
effect's entry (lines 672–675): a freshly (re)created player instance. -/
def playerResetState : PlayerState :=
  { retryCount := 0
    started := false
    loading := true
    error := none
    status := "Establishing IMMI handshake..."
    retryScheduledMs := none }

/-- Lines 695–704: the error message shown for an mpegts `ERROR` event.
`info?.code ? ... : ""` is a JS truthiness test, so code `0` is treated as
absent. -/
def mpegtsErrorMessage (ty detail : String) (info : MpegtsErrorInfo) : String :=
  let statusCode := match info.code with
    | some c => if c ≠ 0 then " " ++ toString c else ""
    | none => ""
  let statusMsg := match info.msg with
    | some m => if m ≠ "" then " " ++ m else ""
    | none => ""
  let message := "Stream Error: " ++ ty ++ " (" ++ detail ++ ")" ++ statusCode ++ statusMsg
  match info.code, info.msg with
  | some 500, some m => if m ≠ "" then "Backend Error: " ++ m else message
  | _, _ => message

/-- Line 709: `detail === "HttpStatusCodeInvalid" && typeof info?.code ===
"number" && info.code >= 500`. -/
def mpegtsShouldRetry (detail : String) (info : MpegtsErrorInfo) : Bool :=
  detail == "HttpStatusCodeInvalid" &&
    (match info.code with
     | some c => decide ((500 : Int) ≤ c)
     | none => false)

/-- Line 712: `Math.min(2000 * retryRef.current, 8000)`, evaluated after the
increment, so `n` is the post-increment counter value. -/
def retryDelayMs (n : Nat) : Nat := min (2000 * n) 8000

/-- JS `Math.round(ms / 1000)` for a non-negative integer `ms`. -/
def jsRoundDiv1000 (ms : Nat) : Nat := (ms + 500) / 1000

/-- Line 713: the status shown while a retry is pending. -/
def retryingStatus (info : MpegtsErrorInfo) (delayMs : Nat) : String :=
  let codeStr := match info.code with
    | some c => toString c
    | none => "undefined"
  "Stream unavailable (HTTP " ++ codeStr ++ "). Retrying in " ++
    toString (jsRoundDiv1000 delayMs) ++ "s..."

/-- Lines 693–720: the mpegts `ERROR` handler.  It always records the error
and stops loading; when the failure is an HTTP 5xx status
(`mpegtsShouldRetry`) and fewer than 3 retries are recorded on this player
instance, it increments the counter, arms a retry timer with delay
`retryDelayMs`, clears the error and shows the retrying status instead. -/
def onMpegtsError (s : PlayerState) (ty detail : String) (info : MpegtsErrorInfo) :
    PlayerState :=
  let message := mpegtsErrorMessage ty detail info
  let s1 := { s with error := some message, loading := false }
  if mpegtsShouldRetry detail info && s1.retryCount < 3 then
    let rc := s1.retryCount + 1
    let delayMs := retryDelayMs rc
    { s1 with
        retryCount := rc
        status := retryingStatus info delayMs
        loading := true
        error := none
        retryScheduledMs := some delayMs }
  else s1

/-- The armed retry timer fires (lines 716–718): `retryToken` is bumped, so
`effectiveUrl` changes and the reset effect plus the main effect re-run,
which in particular resets `retryRef.current` to `0`
(see the module comment above). -/
def onRetryTimerFire (s : PlayerState) : PlayerState :=
  if s.retryScheduledMs.isSome then playerResetState else s

/-- Line 755: the readiness timeout window in milliseconds. -/
def readinessTimeoutMs : Nat := 45000

/-- Line 752: the timeout error text. -/
def timeoutMessage : String :=
  "Stream Connection Timeout (45s). The camera might be busy or unreachable. Try again in a minute."

/-- Lines 750–755: the 45 s timer fires; if no readiness signal was seen on
this instance the error is shown and loading ends. -/
def onReadinessTimeout (s : PlayerState) : PlayerState :=
  if !s.started then { s with error := some timeoutMessage, loading := false } else s

/-- Lines 738–748 / 785–788: a readiness signal (`STATISTICS_INFO` or the
video element's `playing` event) marks the instance started. -/
def onReadinessSignal (s : PlayerState) : PlayerState :=
  { s with started := true, loading := false }

/-- One round of the self-heal loop for an upstream HTTP 5xx failure: the
player errors with `HttpStatusCodeInvalid` and status `c`, and then the
armed retry timer (if any) fires.  Returns the new state and the delay the
retry was scheduled with. -/
def playerErrorThenRetry (s : PlayerState) (c : Int) : PlayerState × Option Nat :=
  let s' := onMpegtsError s "NetworkError" "HttpStatusCodeInvalid" { code := some c, msg := none }
  (onRetryTimerFire s', s'.retryScheduledMs)

/-- The delays scheduled over `k` consecutive upstream 5xx failures, each
followed by its retry timer firing. -/
def consecutive5xxDelays : Nat → PlayerState → Int → List (Option Nat)
  | 0, _, _ => []
  | k + 1, s, c =>
      let r := playerErrorThenRetry s c
      r.2 :: consecutive5xxDelays k r.1 c

example : consecutive5xxDelays 4 playerResetState 503 =
    [some 2000, some 2000, some 2000, some 2000] := by decide

example : retryDelayMs 1 = 2000 ∧ retryDelayMs 2 = 4000 ∧ retryDelayMs 3 = 6000 := by decide

/-! ## JavaScript `Map` and `Set` operations

`playingItems` in `App.tsx` is a JS `Map<number, ...>`; a JS `Map` iterates
in insertion order, `set` on an absent key appends, `set` on a present key
updates in place, and `map.keys().next().value` is the first key in that
order.  We embed such a map as an association list in insertion order.  A JS
`Set<number>` is likewise embedded as a list of its elements in insertion
order (only membership and emptiness matter below). -/

/-- JS `map.has(k)`. -/
def jsMapHas {α : Type} (m : List (Nat × α)) (k : Nat) : Bool :=
  m.any (fun p => p.1 == k)

/-- JS `map.delete(k)` (as the resulting map). -/
def jsMapDelete {α : Type} (m : List (Nat × α)) (k : Nat) : List (Nat × α) :=
  m.filter (fun p => p.1 != k)

/-- JS `map.set(k, v)` (update in place when present, else append). -/
def jsMapSet {α : Type} (m : List (Nat × α)) (k : Nat) (v : α) : List (Nat × α) :=
  if jsMapHas m k then m.map (fun p => if p.1 == k then (k, v) else p)
  else m ++ [(k, v)]

/-- JS `map.keys().next().value`: the first key in insertion order. -/
def jsMapFirstKey {α : Type} (m : List (Nat × α)) : Option Nat :=
  m.head?.map Prod.fst

/-! ## Data model of `App.tsx` -/

/-- A camera of the upstream inventory as `App.tsx` consumes it
(`network_id` may be absent, `product_type` defaulted during `fetchData`). -/
structure Camera where
  id : Nat
  name : String
  network_id : Option Nat
  product_type : String
  serial : Option String
  thumbnail : Option String
deriving Repr, DecidableEq

/-- A network of the upstream inventory. -/
structure Network where
  id : Nat
  name : String
  armed : Bool
deriving Repr, DecidableEq

/-- A media (clip) item as `App.tsx` keeps it after `normalizeMediaItems`. -/
structure MediaItem where
  id : Nat
  device_name : String
  created_at : String
  media_url : Option String
deriving Repr, DecidableEq

/-- A value of the `playingItems` map: `{ id, type, url, camera? }` as
`handleLiveView`/`handlePlayMedia` build it. -/
structure PlayingEntry where
  id : Nat
  kind : String
  url : String
  camera : Option Camera
deriving Repr, DecidableEq

/-- `step` in `App.tsx`: `"login" | "pin" | "dashboard"`. -/
inductive AppStep where
  | login
  | pin
  | dashboard
deriving Repr, DecidableEq

/-- The `App` component state, restricted to the fields the claims are
about, plus `authed`.

`authed` — modelled from the spec: the backend auth commands
(`login`, `verify_pin`, `logout`, `check_auth`) live in the desktop backend,
which is not part of this repository snapshot; per the spec, `logout()`
"clears persisted credential, transitions to `Unauthenticated`" and a
subsequent `check_auth` returns false, so the persisted credential is
modelled as this boolean. -/
structure AppState where
  step : AppStep
  cameras : List Camera
  networks : List Network
  media : List MediaItem
  serverPort : Option Nat
  error : String
  playingItems : List (Nat × PlayingEntry)
  recording : Bool
  theaterMode : Bool
  selectMode : Bool
  selectedMediaIds : List Nat
  hiddenMediaIds : List (Nat × Nat)
  thumbCache : List (String × String)
  mediaThumbCache : List (String × String)
  mediaPage : Nat
  mediaHasMore : Bool
  authed : Bool
deriving Repr, DecidableEq

/-- Modelled from the spec: `check_auth` — "a subsequent `check_auth`
returns false" after logout; it reports whether a credential is persisted. -/
def checkAuth (s : AppState) : Bool := s.authed

/-- `handleLogout` (`App.tsx` lines 112–134).  The pagination state is reset
before the `try` block; when the backend `logout` command succeeds
(`logoutOk`), the credential is cleared (spec-modelled backend effect) and
all the listed client state is reset; when it fails, the error is only
logged and no state is cleared.  Note the camera-thumbnail cache
(`thumbCache`) is not cleared. -/
def handleLogout (s : AppState) (logoutOk : Bool) : AppState :=
  let s0 := { s with mediaPage := 1, mediaHasMore := true }
  if logoutOk then
    { s0 with
        authed := false
        cameras := []
        networks := []
        media := []
        serverPort := none
        mediaThumbCache := []
        selectedMediaIds := []
        selectMode := false
        step := AppStep.login
        theaterMode := false
        playingItems := [] }
  else s0

/-- `fetchData`'s error classification (`App.tsx` lines 302–309): an error
whose text contains `"AUTH_EXPIRED"` or `"401"`, or whose lowercase text
contains `"refresh token"`. -/
def authRejected (errStr : String) : Bool :=
  strIncludes errStr "AUTH_EXPIRED" || strIncludes errStr "401" ||
    strIncludes (strToLower errStr) "refresh token"

/-- The `catch` branch of `fetchData` (`App.tsx` lines 302–309): an
auth-rejected error forces `handleLogout()` and surfaces the session-expired
message; any other error is only logged (`console.error`) and changes no
state. -/
def fetchDataOnError (s : AppState) (errStr : String) : AppState :=
  if authRejected errStr then
    { handleLogout s true with error := "Session expired. Please sign in again." }
  else s

/-- `handleLogin` (`App.tsx` lines 717–735).  `loginRes` is the outcome of
`invoke("login", ...)` (`Except.error` when it throws); on a non-2FA success
the backend has persisted the credential (spec-modelled as `authed := true`)
and `getServerPortWithRetry` runs (`portRes`), after which `fetchData` runs
and the step becomes `dashboard`.  `fetchData`'s own data effects (camera,
network and media lists) are independent of the step transition and are not
repeated here. -/
def handleLogin (s : AppState) (loginRes : Except String String)
    (portRes : Except String Nat) : AppState :=
  let s0 := { s with error := "" }
  match loginRes with
  | Except.error e => { s0 with error := e }
  | Except.ok result =>
      if result == "2FA_REQUIRED" then { s0 with step := AppStep.pin }
      else
        match portRes with
        | Except.ok port =>
            { s0 with authed := true, serverPort := some port, step := AppStep.dashboard }
        | Except.error e => { s0 with authed := true, error := e }

/-- `handleVerifyPin` (`App.tsx` lines 737–751): redeems the PIN; on success
the credential is persisted (spec-modelled) and the step becomes
`dashboard`; on error the step is unchanged and the error surfaced. -/
def handleVerifyPin (s : AppState) (pinRes : Except String Unit)
    (portRes : Except String Nat) : AppState :=
  let s0 := { s with error := "" }
  match pinRes with
  | Except.error e => { s0 with error := e }
  | Except.ok _ =>
      match portRes with
      | Except.ok port =>
          { s0 with authed := true, serverPort := some port, step := AppStep.dashboard }
      | Except.error e => { s0 with authed := true, error := e }

/-- `deleteSelectedMedia` (`App.tsx` lines 564–597).  `remaining` is the id
list `invoke("delete_media_items", ...)` returned (the items that failed to
delete); `now` is `Date.now()`.  The trailing `await fetchData()` re-fetches
the list (and keeps hidden ids filtered out); it is not part of this
synchronous update. -/
def deleteSelectedMedia (s : AppState) (remaining : List Nat) (now : Nat) : AppState :=
  if s.selectedMediaIds.isEmpty then s
  else
    let selectedIds := s.selectedMediaIds
    let deletedIds := selectedIds.filter (fun id => !(remaining.contains id))
    let s1 :=
      if !deletedIds.isEmpty then
        { s with
            hiddenMediaIds := deletedIds.foldl (fun m id => jsMapSet m id now) s.hiddenMediaIds
            media := s.media.filter (fun item => !(deletedIds.contains item.id)) }
      else s
    if !remaining.isEmpty then
      { s1 with selectedMediaIds := remaining, selectMode := true }
    else
      { s1 with selectedMediaIds := [], selectMode := false }

/-- `App.tsx` line 425: `(camera.network_id ?? (networks.length === 1 ?
networks[0]?.id : undefined)) || undefined` — the trailing `|| undefined`
maps a falsy id (0) to undefined. -/
def resolveNetworkId (networks : List Network) (camera : Camera) : Option Nat :=
  let raw := match camera.network_id with
    | some n => some n
    | none => if networks.length == 1 then networks.head?.map Network.id else none
  match raw with
  | some 0 => none
  | x => x

/-- `App.tsx` line 434: the cache-busting nonce appended on a restart. -/
def liveViewNonce (isRestart : Bool) (nowTs : Nat) : String :=
  if isRestart then "&ts=" ++ toString nowTs else ""

/-- `App.tsx` line 435: the local relay URL for a live view. -/
def liveViewUrl (port networkId : Nat) (camera : Camera) (recording : Bool)
    (nonce : String) : String :=
  "http://localhost:" ++ toString port ++ "/live/" ++ toString networkId ++ "/" ++
    toString camera.id ++ "/" ++ camera.product_type ++ "?serial=" ++
    camera.serial.getD "" ++ "&record=" ++ toString recording ++ nonce

/-- The `playingItems` entry `handleLiveView` inserts (lines 447–452). -/
def liveViewEntry (camera : Camera) (url : String) : PlayingEntry :=
  { id := camera.id, kind := "camera", url := url, camera := some camera }

/-- `App.tsx` lines 443–444: `const firstKey = next.keys().next().value;
if (firstKey !== undefined) next.delete(firstKey);` — evict the first
(oldest) entry of the map, when one exists. -/
def evictOldest {α : Type} (m : List (Nat × α)) : List (Nat × α) :=
  match jsMapFirstKey m with
  | some firstKey => jsMapDelete m firstKey
  | none => m

/-- `handleLiveView` (`App.tsx` lines 424–455).  Without a resolvable
network id or server port it only posts a notice and returns.  Otherwise it
updates the `playingItems` map: delete the camera's own entry if present;
clear the whole map for the `"media"` product type; otherwise, on a
non-restart acquire with 4 or more entries still in the map, delete the
first (oldest) key; finally insert the new entry. -/
def handleLiveView (s : AppState) (camera : Camera) (isRestart : Bool)
    (nowTs : Nat) : AppState :=
  match resolveNetworkId s.networks camera, s.serverPort with
  | some networkId, some port =>
      let url := liveViewUrl port networkId camera s.recording (liveViewNonce isRestart nowTs)
      let next := s.playingItems
      let next := if jsMapHas next camera.id then jsMapDelete next camera.id else next
      let next :=
        if camera.product_type == "media" then []
        else if !isRestart && decide (4 ≤ next.length) && !(jsMapHas next camera.id) then
          evictOldest next
        else next
      { s with playingItems := jsMapSet next camera.id (liveViewEntry camera url) }
  | _, _ => s

/-- `handleStop` (`App.tsx` lines 457–468): stop one live view (by id) or
all of them (no id); theater mode ends when the map empties. -/
def handleStop (s : AppState) (id : Option Nat) : AppState :=
  match id with
  | none => { s with theaterMode := false, playingItems := [] }
  | some i =>
      let next := jsMapDelete s.playingItems i
      { s with
          playingItems := next
          theaterMode := if next.isEmpty then false else s.theaterMode }

/-! ## `CameraSettings` save payload (`src/unnamed/part_003` and `part_002`) -/

/-- The shape of the `config` argument passed to `update_camera_config`:
either the config object itself or `{ camera: config }`. -/
inductive ConfigPayload (α : Type) where
  | unwrapped (config : α)
  | wrapped (config : α)
deriving Repr, DecidableEq

/-- `handleSave`'s payload selection in `src/unnamed/part_003` lines 44–47
(the current revision of the settings dialog). -/
def handleSavePayload {α : Type} (productType : String) (config : α) : ConfigPayload α :=
  if productType == "owl" || productType == "mini" || productType == "tulip" ||
      productType == "doorbell" then
    ConfigPayload.unwrapped config
  else ConfigPayload.wrapped config

/-- `handleSave`'s payload selection in the earlier revision
`src/unnamed/part_002` line 45, where only `"owl"` and `"mini"` are sent
unwrapped. -/
def handleSavePayloadLegacy {α : Type} (productType : String) (config : α) :
    ConfigPayload α :=
  if productType == "owl" || productType == "mini" then ConfigPayload.unwrapped config
  else ConfigPayload.wrapped config

/-! ## Destination allowlist guard (modelled from the spec)

The guard and the proxy that applies it live in the desktop backend, which
is not part of this repository snapshot; `src/unnamed/part_004` only calls
into it (`downloadClip` line 184, `getThumbnailBase64` lines 109–112).
The definitions below are modelled from the spec, §4.2: "Parses the URL,
extracts host, and checks it against a static suffix/exact-match allowlist
of upstream domains.  Must reject: non-HTTP(S) schemes, URLs with embedded
credentials, and hosts not matching the allowlist. ... it is the sole SSRF
defense and must be unconditionally applied, including for redirects
followed during proxying (redirect targets are re-validated)." -/

/-- `listSuffixOf pat s`: `pat` is a suffix of `s`. -/
def listSuffixOf (pat s : List Char) : Bool :=
  listPrefixOf pat.reverse s.reverse

/-- A parsed outbound URL: scheme, optional embedded credentials, host. -/
structure ParsedUrl where
  scheme : String
  userinfo : Option String
  host : String
  rest : String
deriving Repr, DecidableEq

/-- The guard's verdict. -/
inductive GuardDecision where
  | ok
  | rejected (reason : String)
deriving Repr, DecidableEq

/-- Modelled from the spec: suffix/exact matching of a host against the
static allowlist of upstream domains (a suffix match only at a label
boundary, i.e. against `"." ++ domain`). -/
def hostAllowed (allow : List String) (host : String) : Bool :=
  allow.any (fun d => host == d || listSuffixOf ("." ++ d).toList host.toList)

/-- Modelled from the spec: `validate(url) -> Ok | Rejected{reason}` of the
Destination Allowlist Guard (§4.2). -/
def validateUrl (allow : List String) (u : ParsedUrl) : GuardDecision :=
  if u.scheme != "http" && u.scheme != "https" then
    GuardDecision.rejected "scheme not allowed"
  else if u.userinfo.isSome then GuardDecision.rejected "embedded credentials"
  else if !hostAllowed allow u.host then GuardDecision.rejected "host not in allowlist"
  else GuardDecision.ok

/-- Modelled from the spec: the proxy follows a request chain (the requested
URL followed by each redirect target in order) and validates every hop with
the guard before fetching it; the first rejection aborts the transfer. -/
def proxyFollowChain (allow : List String) : List ParsedUrl → GuardDecision
  | [] => GuardDecision.ok
  | u :: rest =>
      match validateUrl allow u with
      | GuardDecision.rejected r => GuardDecision.rejected r
      | GuardDecision.ok => proxyFollowChain allow rest

/-- Modelled from the spec: `proxy_download` applies the guard to its URL
and to every redirect target followed while proxying. -/
def proxy_download (allow : List String) (chain : List ParsedUrl) : GuardDecision :=
  proxyFollowChain allow chain

/-- Modelled from the spec: `fetch_thumbnail` takes the "same validation and
credential-attachment path" (§4.4). -/
def fetch_thumbnail (allow : List String) (chain : List ParsedUrl) : GuardDecision :=
  proxyFollowChain allow chain

/-- A dashboard-era application state used to instantiate theorems at
concrete inputs. -/
def sampleAppState : AppState :=
  { step := AppStep.dashboard
    cameras := []
    networks := [{ id := 7, name := "Home", armed := true }]
    media := []
    serverPort := some 8080
    error := ""
    playingItems := []
    recording := false
    theaterMode := false
    selectMode := false
    selectedMediaIds := []
    hiddenMediaIds := []
    thumbCache := []
    mediaThumbCache := []
    mediaPage := 1
    mediaHasMore := true
    authed := true }

/-- A concrete camera of the sample network, used to instantiate theorems at
concrete inputs. -/
def liveCam (i : Nat) : Camera :=
  { id := i
    name := "Cam" ++ toString i
    network_id := some 7
    product_type := "camera"
    serial := some "SER"
    thumbnail := none }

/-! ## Theorems -/

lemma mpegtsShouldRetry_http5xx (c : Int) (hc : (500 : Int) ≤ c) :
    mpegtsShouldRetry "HttpStatusCodeInvalid" { code := some c, msg := none } = true := by
  simp [mpegtsShouldRetry, hc]

lemma onMpegtsError_http5xx_retry (s : PlayerState) (c : Int) (hc : (500 : Int) ≤ c)
    (h3 : s.retryCount < 3) :
    onMpegtsError s "NetworkError" "HttpStatusCodeInvalid" { code := some c, msg := none } =
      { s with
          retryCount := s.retryCount + 1
          status := retryingStatus { code := some c, msg := none }
            (retryDelayMs (s.retryCount + 1))
          loading := true
          error := none
          retryScheduledMs := some (retryDelayMs (s.retryCount + 1)) } := by
  rw [onMpegtsError]
  rw [if_pos]
  simp [mpegtsShouldRetry_http5xx c hc, h3]

lemma playerErrorThenRetry_reset (c : Int) (hc : (500 : Int) ≤ c) :
    playerErrorThenRetry playerResetState c = (playerResetState, some 2000) := by
  rw [playerErrorThenRetry]
  rw [onMpegtsError_http5xx_retry playerResetState c hc (by simp [playerResetState])]
  simp [onRetryTimerFire, playerResetState, retryDelayMs]

/-- **C1** (counterexample to the claim as stated).  Starting a fresh player
instance against an upstream that answers HTTP 503 persistently: four
consecutive 5xx failures, each followed by its armed retry timer firing, all
schedule a retry — every one with a 2000 ms delay.  So the delays are not
2 s, 4 s, 8 s; a 4th retry is attempted (more than 3 total); and after the
3rd failed retry the session is not terminal.  Moreover, even the
per-instance delay formula `Math.min(2000 * n, 8000)` yields 6000 ms (not
8000 ms) for the third retry. -/
theorem mpegts_retry_claim_counterexample :
    consecutive5xxDelays 4 playerResetState 503 =
      [some 2000, some 2000, some 2000, some 2000] ∧
    retryDelayMs 3 = 6000 := by
  decide

/-- **C1** (amended).  On a live-stream failure with an upstream HTTP error
in the 5xx range (`detail = "HttpStatusCodeInvalid"`, `info.code ≥ 500`):
while fewer than 3 retries are recorded on the current player instance, a
retry is scheduled after `min(2000·(n+1), 8000)` ms where `n` is the
instance's retry count — 2 s, 4 s, 6 s for n = 0, 1, 2 — and the error is
not surfaced; once 3 retries are recorded on the instance, the error is
surfaced and no further retry is armed; but the retry counter is reset to 0
whenever an armed retry fires (the retry token changes `effectiveUrl`, whose
reset effect zeroes `retryRef`), so a run of consecutive automatic 5xx
retries is unbounded, each waiting 2 s. -/
theorem mpegts_5xx_retry_amended (s : PlayerState) (c : Int) (hc : (500 : Int) ≤ c) :
    (s.retryCount < 3 →
      (onMpegtsError s "NetworkError" "HttpStatusCodeInvalid"
          { code := some c, msg := none }).retryCount = s.retryCount + 1 ∧
      (onMpegtsError s "NetworkError" "HttpStatusCodeInvalid"
          { code := some c, msg := none }).retryScheduledMs
        = some (retryDelayMs (s.retryCount + 1)) ∧
      (onMpegtsError s "NetworkError" "HttpStatusCodeInvalid"
          { code := some c, msg := none }).error = none ∧
      onRetryTimerFire (onMpegtsError s "NetworkError" "HttpStatusCodeInvalid"
          { code := some c, msg := none }) = playerResetState) ∧
    (3 ≤ s.retryCount →
      (onMpegtsError s "NetworkError" "HttpStatusCodeInvalid"
          { code := some c, msg := none }).error
        = some (mpegtsErrorMessage "NetworkError" "HttpStatusCodeInvalid"
            { code := some c, msg := none }) ∧
      (onMpegtsError s "NetworkError" "HttpStatusCodeInvalid"
          { code := some c, msg := none }).retryScheduledMs = s.retryScheduledMs) ∧
    (∀ k, consecutive5xxDelays k playerResetState c = List.replicate k (some 2000)) := by
  refine ⟨?_, ?_, ?_⟩
  · intro h3
    rw [onMpegtsError_http5xx_retry s c hc h3]
    refine ⟨rfl, rfl, rfl, ?_⟩
    simp [onRetryTimerFire]
  · intro h3
    rw [onMpegtsError]
    rw [if_neg]
    · exact ⟨rfl, rfl⟩
    · simp
      omega
  · intro k
    induction k with
    | zero => rfl
    | succ n ih =>
        rw [consecutive5xxDelays, playerErrorThenRetry_reset c hc]
        simp [ih, List.replicate_succ]

/-- **C1** (witness): instantiated at a fresh instance and HTTP 503. -/
theorem mpegts_5xx_retry_amended_witness :
    consecutive5xxDelays 2 playerResetState 503 = List.replicate 2 (some 2000) :=
  (mpegts_5xx_retry_amended playerResetState 503 (by decide)).2.2 2

/-- **C3**: a live-view stream that never signals readiness (`startedRef`
still false) when the 45-second timer — armed with `readinessTimeoutMs =
45000` ms at player start — fires, is marked failed: the timeout error text
is surfaced to the viewer and loading ends. -/
theorem readiness_timeout_reported (s : PlayerState) (h : s.started = false) :
    (onReadinessTimeout s).error = some timeoutMessage ∧
    (onReadinessTimeout s).loading = false ∧
    readinessTimeoutMs = 45000 := by
  simp [onReadinessTimeout, h, readinessTimeoutMs]

/-- **C3** (witness): a fresh player instance that never started. -/
theorem readiness_timeout_reported_witness :
    (onReadinessTimeout playerResetState).error = some timeoutMessage ∧
    (onReadinessTimeout playerResetState).loading = false ∧
    readinessTimeoutMs = 45000 :=
  readiness_timeout_reported playerResetState rfl

/-- **C4**: a live-stream error that is not an HTTP status error with code
≥ 500 — the error detail is not `"HttpStatusCodeInvalid"`, or every reported
status code is below 500 (e.g. a 4xx) — schedules no retry on a stream with
none pending: the error is surfaced at once and the retry state of this
stream (and only this stream: each player instance owns its state) is
untouched. -/
theorem non5xx_error_terminal (s : PlayerState) (ty detail : String)
    (info : MpegtsErrorInfo)
    (h : detail ≠ "HttpStatusCodeInvalid" ∨ ∀ c, info.code = some c → c < 500)
    (hs : s.retryScheduledMs = none) :
    (onMpegtsError s ty detail info).error = some (mpegtsErrorMessage ty detail info) ∧
    (onMpegtsError s ty detail info).loading = false ∧
    (onMpegtsError s ty detail info).retryScheduledMs = none ∧
    (onMpegtsError s ty detail info).retryCount = s.retryCount := by
  have hsr : mpegtsShouldRetry detail info = false := by
    rcases h with h | h
    · simp [mpegtsShouldRetry, h]
    · rw [mpegtsShouldRetry]
      cases hcode : info.code with
      | none => simp
      | some c =>
          have := h c hcode
          simp [this]
  rw [onMpegtsError]
  rw [if_neg (by simp [hsr])]
  exact ⟨rfl, rfl, hs, rfl⟩

/-- **C4** (witness): an HTTP 404 status error on a fresh instance. -/
theorem non5xx_error_terminal_witness :
    (onMpegtsError playerResetState "NetworkError" "HttpStatusCodeInvalid"
        { code := some 404, msg := none }).error
      = some (mpegtsErrorMessage "NetworkError" "HttpStatusCodeInvalid"
          { code := some 404, msg := none }) ∧
    (onMpegtsError playerResetState "NetworkError" "HttpStatusCodeInvalid"
        { code := some 404, msg := none }).loading = false ∧
    (onMpegtsError playerResetState "NetworkError" "HttpStatusCodeInvalid"
        { code := some 404, msg := none }).retryScheduledMs = none ∧
    (onMpegtsError playerResetState "NetworkError" "HttpStatusCodeInvalid"
        { code := some 404, msg := none }).retryCount = playerResetState.retryCount :=
  non5xx_error_terminal playerResetState "NetworkError" "HttpStatusCodeInvalid"
    { code := some 404, msg := none }
    (Or.inr (by intro c hc; simp at hc; omega)) rfl

lemma validateUrl_ne_ok_of_host (allow : List String) (u : ParsedUrl)
    (hhost : hostAllowed allow u.host = false) :
    validateUrl allow u ≠ GuardDecision.ok := by
  rw [validateUrl]
  split
  · simp
  · split
    · simp
    · rw [if_pos (by simp [hhost])]
      simp

/-- **C2** (spec-modelled): any URL whose host is not in the static upstream
allowlist — the requested URL itself or any redirect target followed while
proxying — makes `proxy_download` and `fetch_thumbnail` reject the request
rather than complete it. -/
theorem disallowed_host_rejected (allow : List String) (chain : List ParsedUrl)
    (u : ParsedUrl) (hmem : u ∈ chain)
    (hhost : hostAllowed allow u.host = false) :
    proxy_download allow chain ≠ GuardDecision.ok ∧
    fetch_thumbnail allow chain ≠ GuardDecision.ok := by
  have main : proxyFollowChain allow chain ≠ GuardDecision.ok := by
    induction chain with
    | nil => cases hmem
    | cons v rest ih =>
        rw [proxyFollowChain]
        rcases List.mem_cons.mp hmem with hv | hv
        · subst hv
          cases hval : validateUrl allow u with
          | ok => exact absurd hval (validateUrl_ne_ok_of_host allow u hhost)
          | rejected r => simp
        · cases hval : validateUrl allow v with
          | ok => exact ih hv
          | rejected r => simp
  exact ⟨main, main⟩

/-- **C2** (witness): allowlist `["example.com"]`; the request for an
allowed host redirects to `evil.test`, which only the redirect reveals —
the proxy still rejects. -/
theorem disallowed_host_rejected_witness :
    proxy_download ["example.com"]
      [{ scheme := "https", userinfo := none, host := "media.example.com", rest := "/clip" },
       { scheme := "https", userinfo := none, host := "evil.test", rest := "/steal" }]
      ≠ GuardDecision.ok ∧
    fetch_thumbnail ["example.com"]
      [{ scheme := "https", userinfo := none, host := "media.example.com", rest := "/clip" },
       { scheme := "https", userinfo := none, host := "evil.test", rest := "/steal" }]
      ≠ GuardDecision.ok :=
  disallowed_host_rejected ["example.com"]
    [{ scheme := "https", userinfo := none, host := "media.example.com", rest := "/clip" },
     { scheme := "https", userinfo := none, host := "evil.test", rest := "/steal" }]
    { scheme := "https", userinfo := none, host := "evil.test", rest := "/steal" }
    (by decide) (by decide)

/-- **C5**: after `handleLogout` completes (the backend `logout` command
succeeded), the set of playing items is empty (every live session ended),
the cached camera, network and media collections and the media-thumbnail
cache are cleared, the server port is dropped, the application is back on
the login step, and `check_auth` observes no authenticated session. -/
theorem logout_terminates_and_clears (s : AppState) :
    (handleLogout s true).playingItems = [] ∧
    (handleLogout s true).cameras = [] ∧
    (handleLogout s true).networks = [] ∧
    (handleLogout s true).media = [] ∧
    (handleLogout s true).mediaThumbCache = [] ∧
    (handleLogout s true).serverPort = none ∧
    (handleLogout s true).step = AppStep.login ∧
    checkAuth (handleLogout s true) = false := by
  simp [handleLogout, checkAuth]

/-- **C5** (witness): the sample dashboard state. -/
theorem logout_terminates_and_clears_witness :
    (handleLogout sampleAppState true).playingItems = [] ∧
    (handleLogout sampleAppState true).cameras = [] ∧
    (handleLogout sampleAppState true).networks = [] ∧
    (handleLogout sampleAppState true).media = [] ∧
    (handleLogout sampleAppState true).mediaThumbCache = [] ∧
    (handleLogout sampleAppState true).serverPort = none ∧
    (handleLogout sampleAppState true).step = AppStep.login ∧
    checkAuth (handleLogout sampleAppState true) = false :=
  logout_terminates_and_clears sampleAppState

/-- **C6**: a data-fetch failure whose error text indicates an auth
rejection (`AUTH_EXPIRED`, a `401`, or a refresh-token failure, as
`authRejected` classifies it) forces a logout — the app returns to the
login step with no authenticated session — and surfaces the session-expired
message; a fetch failure of any other kind changes no state (it is only
logged). -/
theorem auth_error_forces_logout (s : AppState) (errStr : String) :
    (authRejected errStr = true →
      (fetchDataOnError s errStr).step = AppStep.login ∧
      checkAuth (fetchDataOnError s errStr) = false ∧
      (fetchDataOnError s errStr).error = "Session expired. Please sign in again.") ∧
    (authRejected errStr = false → fetchDataOnError s errStr = s) := by
  constructor
  · intro h
    simp [fetchDataOnError, h, handleLogout, checkAuth]
  · intro h
    simp [fetchDataOnError, h]

/-- **C6** (witness): an `AUTH_EXPIRED` error logs the session out; a plain
HTTP 500 fetch error does not. -/
theorem auth_error_forces_logout_witness :
    (fetchDataOnError sampleAppState "Error: AUTH_EXPIRED").step = AppStep.login ∧
    fetchDataOnError sampleAppState "HTTP error 500" = sampleAppState :=
  ⟨((auth_error_forces_logout sampleAppState "Error: AUTH_EXPIRED").1 (by decide)).1,
   (auth_error_forces_logout sampleAppState "HTTP error 500").2 (by decide)⟩

/-- **C7**: `handleLogin` — when the upstream result is `"2FA_REQUIRED"`,
the app moves to the PIN-entry step, not the dashboard; when the result is
any other success, the app moves directly to the dashboard; when the login
call fails, the step is unchanged (still the login screen) and the error
text is surfaced. -/
theorem login_transitions (s : AppState) (port : Nat) (e : String) :
    ((handleLogin s (Except.ok "2FA_REQUIRED") (Except.ok port)).step = AppStep.pin ∧
     (handleLogin s (Except.ok "2FA_REQUIRED") (Except.ok port)).step ≠ AppStep.dashboard) ∧
    (∀ r, r ≠ "2FA_REQUIRED" →
      (handleLogin s (Except.ok r) (Except.ok port)).step = AppStep.dashboard) ∧
    ((handleLogin s (Except.error e) (Except.ok port)).step = s.step ∧
     (handleLogin s (Except.error e) (Except.ok port)).error = e ∧
     checkAuth (handleLogin s (Except.error e) (Except.ok port)) = checkAuth s) := by
  refine ⟨⟨?_, ?_⟩, ?_, ?_, ?_, ?_⟩
  · simp [handleLogin]
  · simp [handleLogin]
  · intro r hr
    simp [handleLogin, hr]
  · simp [handleLogin]
  · simp [handleLogin]
  · simp [handleLogin, checkAuth]

/-- **C7** (witness): concrete transitions from the sample state. -/
theorem login_transitions_witness :
    (handleLogin sampleAppState (Except.ok "2FA_REQUIRED") (Except.ok 8080)).step
      = AppStep.pin ∧
    (handleLogin sampleAppState (Except.ok "LOGIN_OK") (Except.ok 8080)).step
      = AppStep.dashboard ∧
    (handleLogin sampleAppState (Except.error "Invalid credentials") (Except.ok 8080)).error
      = "Invalid credentials" :=
  ⟨(login_transitions sampleAppState 8080 "Invalid credentials").1.1,
   (login_transitions sampleAppState 8080 "Invalid credentials").2.1 "LOGIN_OK" (by decide),
   (login_transitions sampleAppState 8080 "Invalid credentials").2.2.2.1⟩

lemma jsMapHas_jsMapSet_self {α : Type} (m : List (Nat × α)) (k : Nat) (v : α) :
    jsMapHas (jsMapSet m k v) k = true := by
  rw [jsMapSet]
  split
  · rename_i h
    rw [jsMapHas] at h ⊢
    rw [List.any_map]
    simp only [List.any_eq_true] at h ⊢
    obtain ⟨p, hp, hpk⟩ := h
    refine ⟨p, hp, ?_⟩
    simp only [Function.comp_apply, hpk, if_pos]
    simp
  · rw [jsMapHas]
    simp

lemma jsMapHas_jsMapSet_of {α : Type} (m : List (Nat × α)) (k k' : Nat) (v : α)
    (h : jsMapHas m k' = true) :
    jsMapHas (jsMapSet m k v) k' = true := by
  rw [jsMapSet]
  split
  · rw [jsMapHas] at h ⊢
    rw [List.any_map]
    simp only [List.any_eq_true] at h ⊢
    obtain ⟨p, hp, hpk⟩ := h
    refine ⟨p, hp, ?_⟩
    by_cases hk : p.1 = k
    · have hkk : k = k' := by
        rw [← hk]
        simpa using hpk
      simp [Function.comp_apply, hk, hkk]
    · simp only [Function.comp_apply]
      rw [if_neg (by simpa using hk)]
      exact hpk
  · rw [jsMapHas] at h ⊢
    simp [h]

lemma foldl_jsMapSet_has {α : Type} (ids : List Nat) (m : List (Nat × α)) (v : α) (k : Nat)
    (h : k ∈ ids ∨ jsMapHas m k = true) :
    jsMapHas (ids.foldl (fun acc id => jsMapSet acc id v) m) k = true := by
  induction ids generalizing m with
  | nil =>
      rcases h with h | h
      · cases h
      · simpa using h
  | cons i rest ih =>
      rw [List.foldl_cons]
      rcases h with h | h
      · rcases List.mem_cons.mp h with h | h
        · subst h
          exact ih _ (Or.inr (jsMapHas_jsMapSet_self m k v))
        · exact ih _ (Or.inl h)
      · exact ih _ (Or.inr (jsMapHas_jsMapSet_of m i k v h))

lemma deleteSelectedMedia_selected (s : AppState) (remaining : List Nat) (now : Nat)
    (hE : s.selectedMediaIds.isEmpty = false) :
    (deleteSelectedMedia s remaining now).selectedMediaIds =
      if remaining.isEmpty then [] else remaining := by
  rw [deleteSelectedMedia, if_neg (by simp [hE])]
  split
  all_goals dsimp only
  · rename_i h
    rw [if_neg (by simpa using h)]
  · rename_i h
    rw [if_pos (by simpa using h)]

lemma deleteSelectedMedia_media (s : AppState) (remaining : List Nat) (now : Nat)
    (hE : s.selectedMediaIds.isEmpty = false) :
    (deleteSelectedMedia s remaining now).media =
      s.media.filter (fun item =>
        !((s.selectedMediaIds.filter (fun id => !(remaining.contains id))).contains item.id)) := by
  rw [deleteSelectedMedia, if_neg (by simp [hE])]
  split
  all_goals dsimp only
  all_goals
    split
    · rfl
    · rename_i h2
      have h3 : List.filter (fun id => !remaining.contains id) s.selectedMediaIds = [] := by
        simpa using h2
      rw [h3]
      simp

lemma deleteSelectedMedia_hidden (s : AppState) (remaining : List Nat) (now : Nat)
    (hE : s.selectedMediaIds.isEmpty = false) :
    (deleteSelectedMedia s remaining now).hiddenMediaIds =
      (s.selectedMediaIds.filter (fun id => !(remaining.contains id))).foldl
        (fun m id => jsMapSet m id now) s.hiddenMediaIds := by
  rw [deleteSelectedMedia, if_neg (by simp [hE])]
  split
  all_goals dsimp only
  all_goals
    split
    · rfl
    · rename_i h2
      have h3 : List.filter (fun id => !remaining.contains id) s.selectedMediaIds = [] := by
        simpa using h2
      rw [h3]
      rfl

/-- **C8**: deleting a non-empty selection is partial-failure tolerant.
With `remaining` the ids the backend returned (the items that failed to
delete): every returned id is in the selection afterwards, every media item
whose id was returned stays in the list (visible), every selected id not
returned is recorded hidden, and the media list afterwards contains no item
whose id was selected and not returned (i.e. successfully deleted). -/
theorem delete_media_partial_failure (s : AppState) (remaining : List Nat) (now : Nat)
    (hsel : s.selectedMediaIds ≠ []) :
    (∀ id ∈ remaining, id ∈ (deleteSelectedMedia s remaining now).selectedMediaIds) ∧
    (∀ item ∈ s.media, item.id ∈ remaining →
      item ∈ (deleteSelectedMedia s remaining now).media) ∧
    (∀ id ∈ s.selectedMediaIds, id ∉ remaining →
      jsMapHas (deleteSelectedMedia s remaining now).hiddenMediaIds id = true) ∧
    (∀ item ∈ (deleteSelectedMedia s remaining now).media,
      item.id ∈ s.selectedMediaIds → item.id ∈ remaining) := by
  have hE : s.selectedMediaIds.isEmpty = false := List.isEmpty_eq_false.mpr hsel
  refine ⟨?_, ?_, ?_, ?_⟩
  · intro id hid
    rw [deleteSelectedMedia_selected s remaining now hE]
    rw [if_neg (by simp [List.isEmpty_eq_false.mpr (List.ne_nil_of_mem hid)])]
    exact hid
  · intro item hitem hid
    rw [deleteSelectedMedia_media s remaining now hE]
    refine List.mem_filter.mpr ⟨hitem, ?_⟩
    simp [List.mem_filter, hid]
  · intro id hid hnot
    rw [deleteSelectedMedia_hidden s remaining now hE]
    refine foldl_jsMapSet_has _ _ _ _ (Or.inl ?_)
    refine List.mem_filter.mpr ⟨hid, ?_⟩
    simp [hnot]
  · intro item hitem hsel'
    rw [deleteSelectedMedia_media s remaining now hE] at hitem
    have hfilter := (List.mem_filter.mp hitem).2
    by_contra hnot
    simp [List.mem_filter] at hfilter
    rcases hfilter with h | h
    · exact h hsel'
    · exact hnot h

/-- **C8** (witness): selection `[1, 2]`, backend reports id `2` failed to
delete; item 1 is removed and hidden, item 2 stays selected and visible. -/
theorem delete_media_partial_failure_witness :
    (∀ id ∈ [2],
      id ∈ (deleteSelectedMedia
        { sampleAppState with
            media := [{ id := 1, device_name := "A", created_at := "t1", media_url := none },
                      { id := 2, device_name := "B", created_at := "t2", media_url := none }]
            selectedMediaIds := [1, 2] } [2] 1000).selectedMediaIds) ∧
    (∀ item ∈ ({ sampleAppState with
            media := [{ id := 1, device_name := "A", created_at := "t1", media_url := none },
                      { id := 2, device_name := "B", created_at := "t2", media_url := none }]
            selectedMediaIds := [1, 2] } : AppState).media, item.id ∈ [2] →
      item ∈ (deleteSelectedMedia
        { sampleAppState with
            media := [{ id := 1, device_name := "A", created_at := "t1", media_url := none },
                      { id := 2, device_name := "B", created_at := "t2", media_url := none }]
            selectedMediaIds := [1, 2] } [2] 1000).media) ∧
    (∀ id ∈ ({ sampleAppState with
            media := [{ id := 1, device_name := "A", created_at := "t1", media_url := none },
                      { id := 2, device_name := "B", created_at := "t2", media_url := none }]
            selectedMediaIds := [1, 2] } : AppState).selectedMediaIds, id ∉ [2] →
      jsMapHas (deleteSelectedMedia
        { sampleAppState with
            media := [{ id := 1, device_name := "A", created_at := "t1", media_url := none },
                      { id := 2, device_name := "B", created_at := "t2", media_url := none }]
            selectedMediaIds := [1, 2] } [2] 1000).hiddenMediaIds id = true) ∧
    (∀ item ∈ (deleteSelectedMedia
        { sampleAppState with
            media := [{ id := 1, device_name := "A", created_at := "t1", media_url := none },
                      { id := 2, device_name := "B", created_at := "t2", media_url := none }]
            selectedMediaIds := [1, 2] } [2] 1000).media,
      item.id ∈ ({ sampleAppState with
            media := [{ id := 1, device_name := "A", created_at := "t1", media_url := none },
                      { id := 2, device_name := "B", created_at := "t2", media_url := none }]
            selectedMediaIds := [1, 2] } : AppState).selectedMediaIds → item.id ∈ [2]) :=
  delete_media_partial_failure
    { sampleAppState with
        media := [{ id := 1, device_name := "A", created_at := "t1", media_url := none },
                  { id := 2, device_name := "B", created_at := "t2", media_url := none }]
        selectedMediaIds := [1, 2] } [2] 1000 (by decide)

/-- **C9**: `update_camera_config`'s payload shape is selected by the
camera's product type — for `"owl"`, `"mini"`, `"tulip"` and `"doorbell"`
the config object is sent unwrapped, and for every other product type it is
sent wrapped as `{ camera: config }` (the current settings dialog,
`src/unnamed/part_003`; the earlier revision `handleSavePayloadLegacy`
unwraps only `"owl"` and `"mini"`). -/
theorem update_config_payload_by_product (α : Type) (config : α) (productType : String) :
    ((productType = "owl" ∨ productType = "mini" ∨ productType = "tulip" ∨
        productType = "doorbell") →
      handleSavePayload productType config = ConfigPayload.unwrapped config) ∧
    (productType ≠ "owl" → productType ≠ "mini" → productType ≠ "tulip" →
        productType ≠ "doorbell" →
      handleSavePayload productType config = ConfigPayload.wrapped config) := by
  constructor
  · rintro (h | h | h | h) <;> simp [handleSavePayload, h]
  · intro h1 h2 h3 h4
    rw [handleSavePayload, if_neg (by simp [h1, h2, h3, h4])]

/-- **C9** (witness): a doorbell config goes unwrapped; an outdoor camera
(`"catalina"`) goes wrapped. -/
theorem update_config_payload_by_product_witness :
    handleSavePayload "doorbell" (3 : Nat) = ConfigPayload.unwrapped 3 ∧
    handleSavePayload "catalina" (3 : Nat) = ConfigPayload.wrapped 3 :=
  ⟨(update_config_payload_by_product Nat 3 "doorbell").1
      (Or.inr (Or.inr (Or.inr rfl))),
   (update_config_payload_by_product Nat 3 "catalina").2
      (by decide) (by decide) (by decide) (by decide)⟩

/-! ### The live-view registry (`playingItems`) -/

/-- The registry has at most one entry per camera id. -/
def keysNodup {α : Type} (m : List (Nat × α)) : Prop :=
  (m.map Prod.fst).Nodup

lemma jsMapHas_eq_keys_mem {α : Type} (m : List (Nat × α)) (k : Nat) :
    jsMapHas m k = true ↔ k ∈ m.map Prod.fst := by
  rw [jsMapHas, List.any_eq_true]
  constructor
  · rintro ⟨p, hp, hpk⟩
    simp at hpk
    exact hpk ▸ List.mem_map_of_mem Prod.fst hp
  · intro hk
    obtain ⟨p, hp, hpk⟩ := List.mem_map.mp hk
    exact ⟨p, hp, by simp [hpk]⟩

lemma keysNodup_nil {α : Type} : keysNodup ([] : List (Nat × α)) := by
  simp [keysNodup]

lemma keysNodup_jsMapDelete {α : Type} (m : List (Nat × α)) (k : Nat)
    (h : keysNodup m) : keysNodup (jsMapDelete m k) := by
  rw [keysNodup] at h ⊢
  exact List.Nodup.sublist ((List.filter_sublist _).map Prod.fst) h

lemma keysNodup_jsMapSet {α : Type} (m : List (Nat × α)) (k : Nat) (v : α)
    (h : keysNodup m) : keysNodup (jsMapSet m k v) := by
  rw [jsMapSet]
  split
  · have hkeys : (m.map (fun p => if p.1 == k then (k, v) else p)).map Prod.fst
        = m.map Prod.fst := by
      rw [List.map_map]
      apply List.map_congr_left
      intro p _
      by_cases hk : p.1 = k
      · simp [hk]
      · simp [hk]
    rw [keysNodup, hkeys]
    exact h
  · rename_i hhas
    rw [keysNodup] at h
    rw [keysNodup, List.map_append]
    have hnot : k ∉ m.map Prod.fst := by
      intro hk
      exact hhas (jsMapHas_eq_keys_mem m k |>.mpr hk)
    simp [List.nodup_append, h, hnot]

lemma jsMapHas_jsMapDelete_self {α : Type} (m : List (Nat × α)) (k : Nat) :
    jsMapHas (jsMapDelete m k) k = false := by
  rw [Bool.eq_false_iff]
  intro hc
  rw [jsMapHas, List.any_eq_true] at hc
  obtain ⟨p, hp, hpk⟩ := hc
  have h2 := (List.mem_filter.mp hp).2
  simp at hpk h2
  exact h2 hpk

lemma jsMapHas_jsMapDelete_le {α : Type} (m : List (Nat × α)) (k k' : Nat)
    (h : jsMapHas m k' = false) : jsMapHas (jsMapDelete m k) k' = false := by
  rw [Bool.eq_false_iff]
  intro hc
  rw [jsMapHas, List.any_eq_true] at hc
  obtain ⟨p, hp, hpk⟩ := hc
  have hpm := (List.mem_filter.mp hp).1
  rw [Bool.eq_false_iff] at h
  exact h (List.any_eq_true.mpr ⟨p, hpm, hpk⟩)

lemma length_jsMapDelete_le {α : Type} (m : List (Nat × α)) (k : Nat) :
    (jsMapDelete m k).length ≤ m.length :=
  List.length_filter_le _ _

lemma length_jsMapSet_of_not_has {α : Type} (m : List (Nat × α)) (k : Nat) (v : α)
    (h : jsMapHas m k = false) : (jsMapSet m k v).length = m.length + 1 := by
  rw [jsMapSet, if_neg (by simp [h])]
  simp

lemma length_jsMapDelete_firstKey {α : Type} (p : Nat × α) (rest : List (Nat × α)) :
    (jsMapDelete (p :: rest) p.1).length ≤ rest.length := by
  rw [jsMapDelete, List.filter_cons]
  simp [List.length_filter_le]

lemma jsMapDelete_head_of_nodup {α : Type} (p : Nat × α) (rest : List (Nat × α))
    (h : keysNodup (p :: rest)) : jsMapDelete (p :: rest) p.1 = rest := by
  rw [jsMapDelete, List.filter_cons]
  rw [keysNodup, List.map_cons, List.nodup_cons] at h
  have : rest.filter (fun q => q.1 != p.1) = rest := by
    refine List.filter_eq_self.mpr ?_
    intro q hq
    have : q.1 ≠ p.1 := by
      intro he
      exact h.1 (he ▸ List.mem_map_of_mem Prod.fst hq)
    simpa using this
  simp [this]

lemma jsMapHas_cons_false {α : Type} (p : Nat × α) (rest : List (Nat × α)) (k : Nat)
    (h : jsMapHas (p :: rest) k = false) : jsMapHas rest k = false := by
  rw [jsMapHas, List.any_cons, Bool.or_eq_false_iff] at h
  exact h.2

lemma evictOldest_cons {α : Type} (p : Nat × α) (rest : List (Nat × α)) :
    evictOldest (p :: rest) = jsMapDelete (p :: rest) p.1 := rfl

lemma keysNodup_evictOldest {α : Type} (m : List (Nat × α)) (h : keysNodup m) :
    keysNodup (evictOldest m) := by
  cases m with
  | nil => exact h
  | cons p rest =>
      rw [evictOldest_cons]
      exact keysNodup_jsMapDelete _ _ h

lemma handleLiveView_keysNodup (s : AppState) (camera : Camera) (isRestart : Bool)
    (nowTs : Nat) (h : keysNodup s.playingItems) :
    keysNodup (handleLiveView s camera isRestart nowTs).playingItems := by
  rcases hres : resolveNetworkId s.networks camera with _ | networkId <;>
    rcases hport : s.serverPort with _ | port <;>
    rw [handleLiveView, hres, hport]
  · exact h
  · exact h
  · exact h
  · dsimp only
    apply keysNodup_jsMapSet
    have hm1 : keysNodup (if jsMapHas s.playingItems camera.id = true then
        jsMapDelete s.playingItems camera.id else s.playingItems) := by
      split
      · exact keysNodup_jsMapDelete _ _ h
      · exact h
    generalize (if jsMapHas s.playingItems camera.id = true then
        jsMapDelete s.playingItems camera.id else s.playingItems) = m1 at hm1 ⊢
    split
    · exact keysNodup_nil
    · split
      · exact keysNodup_evictOldest _ hm1
      · exact hm1

lemma handleStop_keysNodup (s : AppState) (id : Option Nat)
    (h : keysNodup s.playingItems) :
    keysNodup (handleStop s id).playingItems := by
  cases id with
  | none => exact keysNodup_nil
  | some i => exact keysNodup_jsMapDelete _ _ h

lemma handleLiveView_length_le (s : AppState) (camera : Camera) (nowTs : Nat)
    (h : s.playingItems.length ≤ 4) :
    (handleLiveView s camera false nowTs).playingItems.length ≤ 4 := by
  rcases hres : resolveNetworkId s.networks camera with _ | networkId <;>
    rcases hport : s.serverPort with _ | port <;>
    rw [handleLiveView, hres, hport]
  · exact h
  · exact h
  · exact h
  · dsimp only
    have hm1has : jsMapHas (if jsMapHas s.playingItems camera.id = true then
        jsMapDelete s.playingItems camera.id else s.playingItems) camera.id = false := by
      split
      · exact jsMapHas_jsMapDelete_self _ _
      · rename_i hh
        simpa using hh
    have hm1len : (if jsMapHas s.playingItems camera.id = true then
        jsMapDelete s.playingItems camera.id else s.playingItems).length ≤ 4 := by
      split
      · exact le_trans (length_jsMapDelete_le _ _) h
      · exact h
    generalize (if jsMapHas s.playingItems camera.id = true then
        jsMapDelete s.playingItems camera.id else s.playingItems) = m1 at hm1has hm1len ⊢
    split
    · rw [length_jsMapSet_of_not_has _ _ _
        (show jsMapHas ([] : List (Nat × PlayingEntry)) camera.id = false from rfl)]
      simp
    · split
      · rename_i hcond
        cases m1 with
        | nil => simp at hcond
        | cons p rest =>
            rw [evictOldest_cons]
            rw [length_jsMapSet_of_not_has _ _ _
              (jsMapHas_jsMapDelete_le (p :: rest) p.1 camera.id hm1has)]
            have hd := length_jsMapDelete_firstKey p rest
            have h4 : (p :: rest).length ≤ 4 := hm1len
            simp at h4
            omega
      · rename_i hcond
        rw [length_jsMapSet_of_not_has _ _ _ hm1has]
        have h4 : ¬(4 ≤ m1.length) := by
          intro hge
          exact hcond (by simp [hge, hm1has])
        omega

lemma handleLiveView_evicts_oldest (s : AppState) (camera : Camera) (nowTs : Nat)
    (networkId port : Nat)
    (hres : resolveNetworkId s.networks camera = some networkId)
    (hport : s.serverPort = some port)
    (hmedia : camera.product_type ≠ "media")
    (hhas : jsMapHas s.playingItems camera.id = false)
    (hlen : s.playingItems.length = 4)
    (hnodup : keysNodup s.playingItems) :
    (handleLiveView s camera false nowTs).playingItems =
      s.playingItems.tail ++
        [(camera.id, liveViewEntry camera
            (liveViewUrl port networkId camera s.recording (liveViewNonce false nowTs)))] := by
  rw [handleLiveView, hres, hport]
  dsimp only
  rw [if_neg (show ¬(jsMapHas s.playingItems camera.id = true) by simp [hhas])]
  rw [if_neg (show ¬((camera.product_type == "media") = true) by simpa using hmedia)]
  rw [if_pos (show (!false && decide (4 ≤ s.playingItems.length)
      && !jsMapHas s.playingItems camera.id) = true by simp [hhas, hlen])]
  cases hm : s.playingItems with
  | nil =>
      rw [hm] at hlen
      simp at hlen
  | cons p rest =>
      rw [hm] at hhas hnodup
      rw [evictOldest_cons]
      rw [jsMapDelete_head_of_nodup p rest hnodup]
      rw [jsMapSet, if_neg (by simp [jsMapHas_cons_false p rest camera.id hhas])]
      rfl

/-- **C10** (counterexample to the claim as stated): from an empty registry,
non-restart acquires fill cameras 1–4; a restart acquire (`isRestart =
true`, as the theater-mode button issues) of camera 5, which is not playing,
skips the eviction branch and leaves 5 live views playing concurrently. -/
theorem live_view_cap_counterexample :
    (handleLiveView
      (handleLiveView
        (handleLiveView
          (handleLiveView
            (handleLiveView sampleAppState (liveCam 1) false 0)
            (liveCam 2) false 0)
          (liveCam 3) false 0)
        (liveCam 4) false 0)
      (liveCam 5) true 0).playingItems.length = 5 := by
  decide

/-- **C10** (amended): the registry is a map keyed by camera id — key
uniqueness is preserved by both acquiring (`handleLiveView`) and stopping
(`handleStop`), so at every moment there is at most one live-view entry per
camera.  A non-restart acquire never grows the registry beyond 4 entries,
and a non-restart acquire of a camera that is not playing while 4 entries
are playing evicts the oldest (first-inserted) entry before inserting the
new one; but a restart acquire skips the eviction and can grow the registry
beyond 4. -/
theorem live_view_registry_amended :
    (∀ s camera isRestart nowTs, keysNodup s.playingItems →
      keysNodup (handleLiveView s camera isRestart nowTs).playingItems) ∧
    (∀ s id, keysNodup s.playingItems → keysNodup (handleStop s id).playingItems) ∧
    (∀ s camera nowTs, s.playingItems.length ≤ 4 →
      (handleLiveView s camera false nowTs).playingItems.length ≤ 4) ∧
    (∀ s camera nowTs networkId port,
      resolveNetworkId s.networks camera = some networkId →
      s.serverPort = some port →
      camera.product_type ≠ "media" →
      jsMapHas s.playingItems camera.id = false →
      s.playingItems.length = 4 →
      keysNodup s.playingItems →
      (handleLiveView s camera false nowTs).playingItems =
        s.playingItems.tail ++
          [(camera.id, liveViewEntry camera
              (liveViewUrl port networkId camera s.recording (liveViewNonce false nowTs)))]) :=
  ⟨handleLiveView_keysNodup,
   handleStop_keysNodup,
   handleLiveView_length_le,
   fun s camera nowTs networkId port hres hport hmedia hhas hlen hnodup =>
     handleLiveView_evicts_oldest s camera nowTs networkId port
       hres hport hmedia hhas hlen hnodup⟩
